import Mathlib

/-!
Shallow embedding of the per-fixture betting lifecycle of `src/worker/bot.py`:
the tracked-match state machine (`process_match`, lines 378-542), the
Firestore-backed store operations (`update_tracked_match`,
`add_unresolved_bet`, `move_to_resolved`, lines 63-210), the full-time
resolution pass (`check_unresolved_bets`, lines 544-614, modelled per fixture
by `check_one_bet`), and the chunked finished-fixture fetch
(`get_fixtures_by_ids`, lines 317-355).

Modelling conventions:
* A Firestore document is a record of `Option` fields: `none` means the field
  is absent.  `update_tracked_match` strips `None` values from the update dict
  and merge-sets the rest, which is exactly `mergeField` applied per field.
* Every document id used by the code is `str(match_id)`, so all store
  operations are scoped to a single fixture id and the store is modelled per
  fixture: one `tracked_matches` document, one `unresolved_bets` slot (the
  pending bet), one `resolved_bets` slot.  `archiveWrites` is a ghost counter
  incremented on every write of the resolved document, used to express
  "archived exactly once"; it changes nothing about control flow.
* Telegram message bodies are abridged to short tags; no property below
  depends on the text of a notification, only on whether one is emitted.
* `read_ok` models whether the Firestore read inside `get_tracked_match`
  succeeds: the Python helper returns `None` both when the document is absent
  and when the read raises (bot.py lines 63-78), and `process_match` then
  falls back to `initialize_match_state` (line 404).
* Python truthiness: guards like `not state[k]` treat an absent (`None`)
  field and `False` alike (`truthy`), while `state.get(k) is False`
  distinguishes them (an equality test with `some false`).
-/

/-- Goal tally string, the Python f-string `f"{home}-{away}"`. -/
def scoreString (home away : Nat) : String :=
  toString home ++ "-" ++ toString away

/-- Python `str.upper()` as used on the feed's short status codes
(`status.upper()`, ASCII input). -/
def py_upper (s : String) : String := String.mk (s.data.map Char.toUpper)

/-- Python truthiness of an optional boolean document field:
`None` and `False` are falsy, `True` is truthy. -/
def truthy (o : Option Bool) : Bool := o.getD false

/-- Merge-set semantics for one document field: a present update value
overwrites the stored one, an absent update value (a stripped `None`)
leaves the stored value untouched. -/
def mergeField (upd base : Option α) : Option α :=
  match upd with
  | some v => some v
  | none => base

/-- One snapshot of a fixture as returned by the score feed
(the fields of the API payload that `bot.py` reads). -/
structure FixtureSnapshot where
  fixtureId : Nat
  statusShort : String
  elapsed : Option Int
  homeTeam : String
  awayTeam : String
  leagueName : String
  country : String
  leagueId : Nat
  homeGoals : Option Nat
  awayGoals : Option Nat
deriving Repr, DecidableEq

/-- A `tracked_matches` document (also used for partial updates, where absent
fields are the `None` values stripped by `update_tracked_match`).
Field names mirror the Python keys: `bet36Placed` is `'36_bet_placed'`,
`result36Checked` is `'36_result_checked'`, `bet36Won` is `'36_bet_won'`,
`bet80Placed` is `'80_bet_placed'`, `bet80Resolved` is `'80_bet_resolved'`,
`score36` is `'36_score'`, `htScore` is `'ht_score'`, `score80` is
`'80_score'`, `lastUpdate` is `'last_update'`; `regularResolved`,
`chaseResolved` and `otherResolved` are the dynamic `'<bet_type>_resolved'`
keys written by `move_to_resolved`. -/
structure MatchState where
  bet36Placed : Option Bool := none
  result36Checked : Option Bool := none
  bet36Won : Option Bool := none
  bet80Placed : Option Bool := none
  bet80Resolved : Option Bool := none
  score36 : Option String := none
  htScore : Option String := none
  score80 : Option String := none
  lastUpdate : Option Nat := none
  regularResolved : Option Bool := none
  chaseResolved : Option Bool := none
  otherResolved : Option Bool := none
deriving Repr, DecidableEq

/-- Field-wise merge of a partial update `upd` into a stored document
`base` (`doc_ref.set(clean_data, merge=True)` after `None`-stripping,
bot.py lines 80-93). -/
def mergeState (base upd : MatchState) : MatchState where
  bet36Placed := mergeField upd.bet36Placed base.bet36Placed
  result36Checked := mergeField upd.result36Checked base.result36Checked
  bet36Won := mergeField upd.bet36Won base.bet36Won
  bet80Placed := mergeField upd.bet80Placed base.bet80Placed
  bet80Resolved := mergeField upd.bet80Resolved base.bet80Resolved
  score36 := mergeField upd.score36 base.score36
  htScore := mergeField upd.htScore base.htScore
  score80 := mergeField upd.score80 base.score80
  lastUpdate := mergeField upd.lastUpdate base.lastUpdate
  regularResolved := mergeField upd.regularResolved base.regularResolved
  chaseResolved := mergeField upd.chaseResolved base.chaseResolved
  otherResolved := mergeField upd.otherResolved base.otherResolved

/-- An `unresolved_bets` document (a pending decision).  Fields mirror the
`bet_data` dicts built in `process_match`; `score36`, `htScore`, `score80`
are the `'36_score'`, `'ht_score'`, `'80_score'` keys present only on chase
bets. -/
structure Bet where
  matchName : String
  league : String
  country : String
  leagueId : Nat
  initialScore : String
  betType : String
  score36 : Option String := none
  htScore : Option String := none
  score80 : Option String := none
  placedAt : Nat
deriving Repr, DecidableEq

/-- A `resolved_bets` document: the bet data plus outcome and resolution
time (`resolved_data`, bot.py lines 158-163). -/
structure ResolvedBet where
  bet : Bet
  outcome : String
  resolvedAt : Nat
deriving Repr, DecidableEq

/-- The slice of the Firestore database concerning one fixture id: its
`tracked_matches` document, its `unresolved_bets` document (the single
pending-decision slot - both call sites of `add_unresolved_bet` use document
id `str(match_id)`), and its `resolved_bets` document.  `archiveWrites` is a
ghost counter of writes to the resolved document. -/
structure FixtureStore where
  tracked : Option MatchState := none
  pending : Option Bet := none
  resolved : Option ResolvedBet := none
  archiveWrites : Nat := 0
deriving Repr, DecidableEq

/-- Observable side effects of one operation, in emission order. -/
inductive Effect where
  | telegram (msg : String)
  | placeDecision (betType : String) (bet : Bet)
deriving Repr, DecidableEq

/-- Whether an effect is a decision placement. -/
def isPlace : Effect → Bool
  | .placeDecision _ _ => true
  | _ => false

/-- Number of decision-placement effects in a list. -/
def countPlace (effs : List Effect) : Nat := (effs.filter isPlace).length

/-- `FirebaseManager.update_tracked_match` (bot.py 80-93): strip `None`
values, then merge-set; creates the document if absent. -/
def update_tracked_match (s : FixtureStore) (data : MatchState) : FixtureStore :=
  { s with tracked := some (mergeState (s.tracked.getD {}) data) }

/-- `FirebaseManager.add_unresolved_bet` (bot.py 112-144): a transaction that
requires the tracked document to exist, sets the (single) unresolved-bet
document for the fixture, and merge-applies `data['tracked_updates']` when
present.  An error models the raised exception, with the transaction (hence
the store) unapplied. -/
def add_unresolved_bet (s : FixtureStore) (bet : Bet)
    (tracked_updates : Option MatchState) : Except String FixtureStore :=
  match s.tracked with
  | none => .error "Match not found in tracked_matches"
  | some _ =>
    let s1 := { s with pending := some bet }
    match tracked_updates with
    | some tu => .ok (update_tracked_match s1 tu)
    | none => .ok s1

/-- `FirebaseManager._can_remove_tracked_match` (bot.py 197-210). -/
def can_remove_tracked_match (tracked_data : MatchState) (bet_type : String) : Bool :=
  if bet_type == "chase" then true
  else if bet_type == "regular" then
    if tracked_data.bet36Won == some false then false else true
  else true

/-- The `'<bet_type>_resolved': True` merge update written by
`move_to_resolved` when the tracked document is kept (bot.py 181-185). -/
def resolved_flag_update (now : Nat) (bet_type : String) : MatchState :=
  if bet_type == "regular" then { regularResolved := some true, lastUpdate := some now }
  else if bet_type == "chase" then { chaseResolved := some true, lastUpdate := some now }
  else { otherResolved := some true, lastUpdate := some now }

/-- `FirebaseManager.move_to_resolved` (bot.py 146-195): a single
transaction that (1) verifies the bet is still unresolved, aborting (error,
store unchanged) otherwise; (2) writes the resolved document; (3) deletes the
unresolved document; (4) deletes the tracked document when
`can_remove_tracked_match` allows it, else merges a `'<bet_type>_resolved'`
marker. -/
def move_to_resolved (now : Nat) (s : FixtureStore) (bet_info : Bet)
    (outcome : String) : Except String FixtureStore :=
  match s.pending with
  | none => .error "Bet not found in unresolved_bets"
  | some _ =>
    let resolved_data : ResolvedBet :=
      { bet := bet_info, outcome := outcome, resolvedAt := now }
    let s1 : FixtureStore :=
      { s with resolved := some resolved_data,
               archiveWrites := s.archiveWrites + 1,
               pending := none }
    match s1.tracked with
    | none => .ok s1
    | some tracked_data =>
      if can_remove_tracked_match tracked_data bet_info.betType then
        .ok { s1 with tracked := none }
      else
        .ok (update_tracked_match s1 (resolved_flag_update now bet_info.betType))

/-- `should_process_match` (bot.py 357-360). -/
def should_process_match (fixture_status : String) (elapsed_time : Option Int) : Bool :=
  let status := py_upper fixture_status
  (["LIVE", "HT", "1H", "2H"].contains status) && elapsed_time.isSome

/-- The `default_state` dict of `initialize_match_state` (bot.py 362-376):
flags `False`, scores `None` (absent), `36_bet_won` `None`. -/
def default_state (now : Nat) : MatchState where
  bet36Placed := some false
  result36Checked := some false
  bet36Won := none
  bet80Placed := some false
  bet80Resolved := some false
  score36 := none
  htScore := none
  score80 := none
  lastUpdate := some now

/-- Guard of the 36-minute bet block (bot.py 413-414):
first half, minute in the closed window [35, 37], checkpoint not yet
evaluated. -/
def guard36 (status : String) (elapsed : Int) (state : MatchState) : Bool :=
  status == "1H" && decide (35 ≤ elapsed) && decide (elapsed ≤ 37)
    && !(truthy state.bet36Placed)

/-- Guard of the half-time result check (bot.py 456-458). -/
def guardHT (status : String) (state : MatchState) : Bool :=
  status == "HT" && truthy state.bet36Placed && !(truthy state.result36Checked)

/-- Guard of the 80-minute chase block (bot.py 502-505): second half, minute
in the closed window [79, 81], chase not yet placed, and the 36-minute bet
known lost (`state.get('36_bet_won') is False`). -/
def guardChase (status : String) (elapsed : Int) (state : MatchState) : Bool :=
  status == "2H" && decide (79 ≤ elapsed) && decide (elapsed ≤ 81)
    && !(truthy state.bet80Placed) && (state.bet36Won == some false)

/-- The accepted level-score patterns of the 36-minute checkpoint
(bot.py 438). -/
def levelScores : List String := ["0-0", "1-1", "2-2", "3-3"]

/-- Body of `process_match` (bot.py 378-542) after the state read: `state` is
the dict bound at line 404 (the read document, or the `default_state` dict
returned by `initialize_match_state`), `s1` the store after the possible
initialization write.

The source runs its three checkpoint blocks in sequence on the state dict
read once at the top; their phase guards (`1H` / `HT` / `2H`) are mutually
exclusive, so at most one block fires per call and the sequence is written
here as an if/else-if chain.  The early `return` on the no-pending-bet
half-time path and the function-level `try/except` (which skips the rest of
the body on a raised transaction error) only ever skip blocks whose guards
are already false, so both are absorbed by the chain. -/
def process_match_body (now : Nat) (snap : FixtureSnapshot) (elapsed : Int)
    (state : MatchState) (s1 : FixtureStore) : FixtureStore × List Effect :=
  let status := py_upper snap.statusShort
  let home_goals := snap.homeGoals.getD 0
  let away_goals := snap.awayGoals.getD 0
  let current_score := scoreString home_goals away_goals
  let match_name := snap.homeTeam ++ " vs " ++ snap.awayTeam
  if guard36 status elapsed state then
    let bet_data : Bet :=
      { matchName := match_name, league := snap.leagueName,
        country := snap.country, leagueId := snap.leagueId,
        initialScore := current_score, betType := "regular",
        placedAt := now }
    let tracked_updates : MatchState :=
      { bet36Placed := some true, score36 := some current_score,
        lastUpdate := some now }
    if levelScores.contains current_score then
      match add_unresolved_bet s1 bet_data (some tracked_updates) with
      | .ok s2 =>
        (s2, [Effect.placeDecision "regular" bet_data,
              Effect.telegram "36 correct score bet placed"])
      | .error _ => (s1, [])
    else
      (update_tracked_match s1 tracked_updates, [])
  else if guardHT status state then
    let s2 := update_tracked_match s1
      { htScore := some current_score, lastUpdate := some now }
    -- unresolved_bet = get_unresolved_bets('regular').get(str(fixture_id))
    let unresolved_bet : Option Bet :=
      match s2.pending with
      | some b => if b.betType == "regular" then some b else none
      | none => none
    match unresolved_bet with
    | none =>
      (update_tracked_match s2
        { result36Checked := some true, lastUpdate := some now }, [])
    | some bet =>
      let outcome := if state.score36 == some current_score then "win" else "loss"
      let msg := Effect.telegram ("HT result 36 bet " ++ outcome)
      match move_to_resolved now s2 bet outcome with
      | .error _ => (s2, [msg])
      | .ok s3 =>
        (update_tracked_match s3
          { result36Checked := some true,
            bet36Won := some (outcome == "win"),
            lastUpdate := some now }, [msg])
  else if guardChase status elapsed state then
    let bet_data : Bet :=
      { matchName := match_name, league := snap.leagueName,
        country := snap.country, leagueId := snap.leagueId,
        initialScore := current_score, betType := "chase",
        score36 := state.score36, htScore := some current_score,
        score80 := some current_score, placedAt := now }
    let tracked_updates : MatchState :=
      { bet80Placed := some true, score80 := some current_score,
        lastUpdate := some now }
    match add_unresolved_bet s1 bet_data (some tracked_updates) with
    | .ok s2 =>
      (s2, [Effect.placeDecision "chase" bet_data,
            Effect.telegram "80 chase bet placed"])
    | .error _ => (s1, [])
  else (s1, [])

/-- `process_match` (bot.py 378-542) for one snapshot against the fixture's
store slice.  `now` is the current wall-clock (the `datetime.utcnow()`
values), `read_ok` whether the initial `get_tracked_match` read succeeds
(the helper also returns `None`, as for an absent document, when the read
raises).  Non-processable snapshots are skipped up front; otherwise
`state = get_tracked_match(..) or initialize_match_state(..)` is read or
initialized and the checkpoint blocks run via `process_match_body`. -/
def process_match (now : Nat) (read_ok : Bool) (snap : FixtureSnapshot)
    (s0 : FixtureStore) : FixtureStore × List Effect :=
  if ¬ should_process_match snap.statusShort snap.elapsed then (s0, [])
  else
    match snap.elapsed with
    | none => (s0, [])
    | some elapsed =>
      match (if read_ok then s0.tracked else none) with
      | some st => process_match_body now snap elapsed st s0
      | none =>
        process_match_body now snap elapsed (default_state now)
          (update_tracked_match s0 (default_state now))

/-- Full-time outcome rule of `check_unresolved_bets` (bot.py 581-608):
regular bets reaching full time are archived as `"error"` ("Regular bet was
not resolved at HT"); chase bets win exactly when the final score equals the
score recorded at minute 80 (`bet_info.get('80_score', '')`); unknown bet
types are archived as `"error"`. -/
def ft_outcome (bet_info : Bet) (final_score : String) : String :=
  if bet_info.betType == "regular" then "error"
  else if bet_info.betType == "chase" then
    let chase_score := bet_info.score80.getD ""
    if final_score == chase_score then "win" else "loss"
  else "error"

/-- Loop body of `check_unresolved_bets` (bot.py 557-611) for one fixture:
`lookup` is the entry for this fixture id in the `get_fixtures_by_ids`
result (absent when the fixture was not returned among finished matches).
A decision whose fixture is not reported `FT` is left untouched; otherwise
the outcome is computed, one notification is sent, and the bet is moved to
resolved (an error from the transaction leaves the store unchanged). -/
def check_one_bet (now : Nat) (s : FixtureStore)
    (lookup : Option FixtureSnapshot) : FixtureStore × List Effect :=
  match s.pending with
  | none => (s, [])
  | some bet_info =>
    match lookup with
    | none => (s, [])
    | some match_data =>
      if match_data.statusShort != "FT" then (s, [])
      else
        let final_score :=
          scoreString (match_data.homeGoals.getD 0) (match_data.awayGoals.getD 0)
        let outcome := ft_outcome bet_info final_score
        let msg := Effect.telegram ("FT " ++ bet_info.betType ++ " bet " ++ outcome)
        match move_to_resolved now s bet_info outcome with
        | .ok s2 => (s2, [msg])
        | .error _ => (s, [msg])

/-- One event of a driver cycle affecting a given fixture: either a live
snapshot fed to `process_match` (with a successful state read), or this
fixture's slice of a `check_unresolved_bets` pass. -/
inductive BotEvent where
  | liveSnap (now : Nat) (snap : FixtureSnapshot)
  | ftCheck (now : Nat) (lookup : Option FixtureSnapshot)
deriving Repr

/-- Apply one event to the fixture's store slice. -/
def botStep (s : FixtureStore) : BotEvent → FixtureStore × List Effect
  | .liveSnap now snap => process_match now true snap s
  | .ftCheck now lookup => check_one_bet now s lookup

/-- Run a sequence of events, concatenating the emitted effects. -/
def runEvents (s : FixtureStore) : List BotEvent → FixtureStore × List Effect
  | [] => (s, [])
  | ev :: rest =>
    let r1 := botStep s ev
    let r2 := runEvents r1.1 rest
    (r2.1, r1.2 ++ r2.2)

/-- Outcome of one HTTP request of the finished-fixture fetch: a rate-limit
response (status 429 with a Retry-After delay), a successful payload (the
finished fixtures as id/payload pairs), or a request exception. -/
inductive ApiResult where
  | rateLimited (retry_after : Nat)
  | ok (response_fixtures : List (Nat × String))
  | failed
deriving Repr, DecidableEq

/-- The i-th chunk of the id list (`match_ids[i:i+chunk_size]` for
`i in range(0, len(match_ids), chunk_size)`, bot.py 328-329). -/
def chunksOf (n : Nat) (xs : List α) : List (List α) :=
  (List.range ((xs.length + n - 1) / n)).map fun i => (xs.drop (i * n)).take n

/-- `get_fixtures_by_ids` (bot.py 317-355): chunk the ids (chunk size 20,
the API limit) and issue exactly one request per chunk; `feed n chunk` is
the response the feed gives to the n-th request issued, counted across the
whole call.  A rate-limited response sleeps for the signalled delay and then
`continue`s - which advances the `for` loop to the *next chunk*, so the
rate-limited chunk is skipped, not retried; a request exception likewise
logs and skips the chunk.  Successful chunks contribute their finished
fixtures. -/
def get_fixtures_by_ids (feed : Nat → List Nat → ApiResult)
    (match_ids : List Nat) : List (Nat × String) :=
  let step := fun (acc : List (Nat × String) × Nat) (chunk : List Nat) =>
    match feed acc.2 chunk with
    | .ok response_fixtures => (acc.1 ++ response_fixtures, acc.2 + 1)
    | .rateLimited _ => (acc.1, acc.2 + 1)
    | .failed => (acc.1, acc.2 + 1)
  ((chunksOf 20 match_ids).foldl step ([], 0)).1

/-- `handle_api_rate_limit` (bot.py 277-284): report (and sleep) exactly on
a 429 status. -/
def handle_api_rate_limit (status_code : Nat) : Bool := status_code == 429

/-! Basic reduction lemmas for the store model. -/

@[simp] theorem mergeField_some (v : α) (b : Option α) : mergeField (some v) b = some v := rfl

@[simp] theorem mergeField_none (b : Option α) : mergeField none b = b := rfl

@[simp] theorem truthy_some (b : Bool) : truthy (some b) = b := rfl

@[simp] theorem truthy_none : truthy none = false := rfl

@[simp] theorem mergeState_bet36Placed (b u : MatchState) :
    (mergeState b u).bet36Placed = mergeField u.bet36Placed b.bet36Placed := rfl

@[simp] theorem mergeState_result36Checked (b u : MatchState) :
    (mergeState b u).result36Checked = mergeField u.result36Checked b.result36Checked := rfl

@[simp] theorem mergeState_bet36Won (b u : MatchState) :
    (mergeState b u).bet36Won = mergeField u.bet36Won b.bet36Won := rfl

@[simp] theorem mergeState_bet80Placed (b u : MatchState) :
    (mergeState b u).bet80Placed = mergeField u.bet80Placed b.bet80Placed := rfl

@[simp] theorem mergeState_score36 (b u : MatchState) :
    (mergeState b u).score36 = mergeField u.score36 b.score36 := rfl

@[simp] theorem mergeState_htScore (b u : MatchState) :
    (mergeState b u).htScore = mergeField u.htScore b.htScore := rfl

@[simp] theorem mergeState_score80 (b u : MatchState) :
    (mergeState b u).score80 = mergeField u.score80 b.score80 := rfl

@[simp] theorem update_tracked_match_tracked (s : FixtureStore) (d : MatchState) :
    (update_tracked_match s d).tracked = some (mergeState (s.tracked.getD {}) d) := rfl

@[simp] theorem update_tracked_match_pending (s : FixtureStore) (d : MatchState) :
    (update_tracked_match s d).pending = s.pending := rfl

@[simp] theorem update_tracked_match_resolved (s : FixtureStore) (d : MatchState) :
    (update_tracked_match s d).resolved = s.resolved := rfl

@[simp] theorem update_tracked_match_archiveWrites (s : FixtureStore) (d : MatchState) :
    (update_tracked_match s d).archiveWrites = s.archiveWrites := rfl

theorem guard36_iff (u : String) (e : Int) (st : MatchState) :
    guard36 u e st = true ↔
      (u = "1H" ∧ 35 ≤ e ∧ e ≤ 37 ∧ truthy st.bet36Placed = false) := by
  simp [guard36, Bool.and_eq_true, decide_eq_true_iff, Bool.not_eq_true',
    beq_iff_eq, and_assoc]

theorem guardHT_iff (u : String) (st : MatchState) :
    guardHT u st = true ↔
      (u = "HT" ∧ truthy st.bet36Placed = true ∧ truthy st.result36Checked = false) := by
  simp [guardHT, Bool.and_eq_true, Bool.not_eq_true', beq_iff_eq, and_assoc]

theorem guardChase_iff (u : String) (e : Int) (st : MatchState) :
    guardChase u e st = true ↔
      (u = "2H" ∧ 79 ≤ e ∧ e ≤ 81 ∧ truthy st.bet80Placed = false ∧
        st.bet36Won = some false) := by
  simp [guardChase, Bool.and_eq_true, decide_eq_true_iff, Bool.not_eq_true',
    beq_iff_eq, and_assoc]

theorem guard36_false_of_placed (u : String) (e : Int) (st : MatchState)
    (h : st.bet36Placed = some true) : guard36 u e st = false := by
  simp [guard36, h]

theorem guardHT_false_of_checked (u : String) (st : MatchState)
    (h : st.result36Checked = some true) : guardHT u st = false := by
  simp [guardHT, h]

theorem guardHT_false_of_status (u : String) (st : MatchState)
    (h : u ≠ "HT") : guardHT u st = false := by
  simp [guardHT, beq_eq_false_iff_ne.mpr h]

theorem guard36_false_of_status (u : String) (e : Int) (st : MatchState)
    (h : u ≠ "1H") : guard36 u e st = false := by
  simp [guard36, beq_eq_false_iff_ne.mpr h]

theorem guardChase_false_of_status (u : String) (e : Int) (st : MatchState)
    (h : u ≠ "2H") : guardChase u e st = false := by
  simp [guardChase, beq_eq_false_iff_ne.mpr h]

theorem guardChase_false_of_placed (u : String) (e : Int) (st : MatchState)
    (h : st.bet80Placed = some true) : guardChase u e st = false := by
  simp [guardChase, h]

@[simp] theorem mergeState_empty_default (now : Nat) :
    mergeState {} (default_state now) = default_state now := rfl

/-- Non-processable snapshots are skipped with no write and no effect. -/
theorem process_match_skip (now : Nat) (read_ok : Bool) (snap : FixtureSnapshot)
    (s : FixtureStore)
    (h : should_process_match snap.statusShort snap.elapsed = false) :
    process_match now read_ok snap s = (s, []) := by
  unfold process_match
  simp [h]

/-- Reduction of `process_match` when the state read succeeds on an
existing document. -/
theorem process_match_read_some (now : Nat) (snap : FixtureSnapshot)
    (s : FixtureStore) (st : MatchState) (e : Int)
    (hsp : should_process_match snap.statusShort snap.elapsed = true)
    (he : snap.elapsed = some e) (hst : s.tracked = some st) :
    process_match now true snap s = process_match_body now snap e st s := by
  unfold process_match
  rw [he] at hsp ⊢
  simp [hsp, hst]

/-- Reduction of `process_match` when the document is absent (or, with
`read_ok = false`, the read raised): the state is re-initialized by a merge
write of `default_state` and the body runs on the returned default dict. -/
theorem process_match_read_none (now : Nat) (read_ok : Bool)
    (snap : FixtureSnapshot) (s : FixtureStore) (e : Int)
    (hsp : should_process_match snap.statusShort snap.elapsed = true)
    (he : snap.elapsed = some e)
    (hread : (if read_ok then s.tracked else none) = none) :
    process_match now read_ok snap s =
      process_match_body now snap e (default_state now)
        (update_tracked_match s (default_state now)) := by
  unfold process_match
  rw [he] at hsp ⊢
  simp [hsp, hread]

/-- `move_to_resolved` succeeds whenever the bet is still pending, and the
resulting transaction always clears the pending slot, writes the resolved
document once, and bumps the ghost archive counter. -/
theorem move_to_resolved_exists_ok (now : Nat) (s : FixtureStore) (b bet_info : Bet)
    (outcome : String) (h : s.pending = some b) :
    ∃ s2, move_to_resolved now s bet_info outcome = .ok s2 ∧
      s2.pending = none ∧
      s2.resolved = some { bet := bet_info, outcome := outcome, resolvedAt := now } ∧
      s2.archiveWrites = s.archiveWrites + 1 := by
  unfold move_to_resolved
  rw [h]
  cases htr : s.tracked with
  | none => exact ⟨_, rfl, rfl, rfl, rfl⟩
  | some td =>
    by_cases hcr : can_remove_tracked_match td bet_info.betType
    · simp only [htr, hcr, if_true]
      exact ⟨_, rfl, rfl, rfl, rfl⟩
    · simp only [htr, hcr, if_false, Bool.false_eq_true]
      exact ⟨_, rfl, rfl, rfl, rfl⟩


/-- When no checkpoint guard holds for the snapshot against the state dict,
the body writes nothing further and emits nothing. -/
theorem process_match_body_noop (now : Nat) (snap : FixtureSnapshot) (e : Int)
    (state : MatchState) (s1 : FixtureStore)
    (h36 : guard36 (py_upper snap.statusShort) e state = false)
    (hHT : guardHT (py_upper snap.statusShort) state = false)
    (hch : guardChase (py_upper snap.statusShort) e state = false) :
    process_match_body now snap e state s1 = (s1, []) := by
  unfold process_match_body
  simp [h36, hHT, hch]

/-- After the body runs on a processable snapshot over a store whose tracked
document is the state dict just read, the tracked document exists and none
of the three checkpoint guards holds for that same snapshot any more: a
fired block persists the very flag its guard tests, and blocks that did not
fire leave their already-false guards untouched. -/
theorem process_match_body_stabilizes (now : Nat) (snap : FixtureSnapshot)
    (e : Int) (state : MatchState) (s1 : FixtureStore)
    (hstate : s1.tracked = some state) :
    ∃ st', (process_match_body now snap e state s1).1.tracked = some st' ∧
      guard36 (py_upper snap.statusShort) e st' = false ∧
      guardHT (py_upper snap.statusShort) st' = false ∧
      guardChase (py_upper snap.statusShort) e st' = false := by
  unfold process_match_body
  by_cases g1 : guard36 (py_upper snap.statusShort) e state
  · have hu : py_upper snap.statusShort = "1H" := ((guard36_iff _ _ _).mp g1).1
    by_cases hcur : levelScores.contains
        (scoreString (snap.homeGoals.getD 0) (snap.awayGoals.getD 0))
    · simp only [g1, hcur, if_true, add_unresolved_bet, hstate,
        update_tracked_match_tracked]
      refine ⟨_, rfl, ?_, ?_, ?_⟩
      · exact guard36_false_of_placed _ _ _ (by simp)
      · exact guardHT_false_of_status _ _ (by rw [hu]; decide)
      · exact guardChase_false_of_status _ _ _ (by rw [hu]; decide)
    · simp only [g1, hcur, if_true, Bool.false_eq_true, if_false,
        update_tracked_match_tracked]
      refine ⟨_, rfl, ?_, ?_, ?_⟩
      · exact guard36_false_of_placed _ _ _ (by simp)
      · exact guardHT_false_of_status _ _ (by rw [hu]; decide)
      · exact guardChase_false_of_status _ _ _ (by rw [hu]; decide)
  · by_cases g2 : guardHT (py_upper snap.statusShort) state
    · have hu : py_upper snap.statusShort = "HT" := ((guardHT_iff _ _).mp g2).1
      have g1f : guard36 (py_upper snap.statusShort) e state = false := by
        simp only [Bool.not_eq_true] at g1; exact g1
      simp only [g1f, Bool.false_eq_true, if_false, g2, if_true,
        update_tracked_match_pending]
      cases hp : s1.pending with
      | none =>
        simp only [update_tracked_match_tracked]
        refine ⟨_, rfl, ?_, ?_, ?_⟩
        · exact guard36_false_of_status _ _ _ (by rw [hu]; decide)
        · exact guardHT_false_of_checked _ _ (by simp)
        · exact guardChase_false_of_status _ _ _ (by rw [hu]; decide)
      | some b =>
        by_cases hbt : (b.betType == "regular") = true
        · simp only [hbt, if_true]
          obtain ⟨s3, hs3, -, -, -⟩ := move_to_resolved_exists_ok now
            (update_tracked_match s1
              { htScore := some (scoreString (snap.homeGoals.getD 0) (snap.awayGoals.getD 0)),
                lastUpdate := some now }) b b
            (if state.score36 == some (scoreString (snap.homeGoals.getD 0) (snap.awayGoals.getD 0))
              then "win" else "loss")
            (by simp [hp])
          rw [hs3]
          simp only [update_tracked_match_tracked]
          refine ⟨_, rfl, ?_, ?_, ?_⟩
          · exact guard36_false_of_status _ _ _ (by rw [hu]; decide)
          · exact guardHT_false_of_checked _ _ (by simp)
          · exact guardChase_false_of_status _ _ _ (by rw [hu]; decide)
        · simp only [hbt, Bool.false_eq_true, if_false,
            update_tracked_match_tracked]
          refine ⟨_, rfl, ?_, ?_, ?_⟩
          · exact guard36_false_of_status _ _ _ (by rw [hu]; decide)
          · exact guardHT_false_of_checked _ _ (by simp)
          · exact guardChase_false_of_status _ _ _ (by rw [hu]; decide)
    · by_cases g3 : guardChase (py_upper snap.statusShort) e state
      · have hu : py_upper snap.statusShort = "2H" :=
          ((guardChase_iff _ _ _).mp g3).1
        simp only [g1, g2, g3, if_true, Bool.false_eq_true, if_false,
          add_unresolved_bet, hstate, update_tracked_match_tracked]
        refine ⟨_, rfl, ?_, ?_, ?_⟩
        · exact guard36_false_of_status _ _ _ (by rw [hu]; decide)
        · exact guardHT_false_of_status _ _ (by rw [hu]; decide)
        · exact guardChase_false_of_placed _ _ _ (by simp)
      · have g1f : guard36 (py_upper snap.statusShort) e state = false := by
          simp only [Bool.not_eq_true] at g1; exact g1
        have g2f : guardHT (py_upper snap.statusShort) state = false := by
          simp only [Bool.not_eq_true] at g2; exact g2
        have g3f : guardChase (py_upper snap.statusShort) e state = false := by
          simp only [Bool.not_eq_true] at g3; exact g3
        simp only [g1f, g2f, g3f, Bool.false_eq_true, if_false]
        exact ⟨state, hstate, g1f, g2f, g3f⟩

/-- Any single body run emits at most one decision placement. -/
theorem process_match_body_countPlace (now : Nat) (snap : FixtureSnapshot)
    (e : Int) (state : MatchState) (s1 : FixtureStore) :
    countPlace (process_match_body now snap e state s1).2 ≤ 1 := by
  unfold process_match_body
  dsimp only
  split
  · split
    · split <;> simp [countPlace, isPlace]
    · simp [countPlace, isPlace]
  · split
    · split
      · simp [countPlace, isPlace]
      · split <;> simp [countPlace, isPlace]
    · split
      · split <;> simp [countPlace, isPlace]
      · simp [countPlace, isPlace]

/-- Claim C1: evaluating the lifecycle state machine twice on the same
snapshot (same phase, elapsed minute and score) leaves the persisted store
of the first evaluation unchanged and emits at most one decision placement
in total; the second evaluation is a complete no-op (no write, no effect),
regardless of the wall-clock of the second call.  The guarantee comes only
from the persisted flags (`36_bet_placed`, `36_result_checked`,
`80_bet_placed`): the statement quantifies over arbitrary stores and the
two calls share no in-memory state. -/
theorem C1_idempotent_checkpoint (now now2 : Nat) (snap : FixtureSnapshot)
    (s : FixtureStore) :
    process_match now2 true snap (process_match now true snap s).1
        = ((process_match now true snap s).1, []) ∧
    countPlace ((process_match now true snap s).2 ++
        (process_match now2 true snap (process_match now true snap s).1).2) ≤ 1 := by
  by_cases hsp : should_process_match snap.statusShort snap.elapsed
  · cases he : snap.elapsed with
    | none =>
      exfalso
      rw [should_process_match] at hsp
      simp [he] at hsp
    | some e =>
      have key : process_match now2 true snap (process_match now true snap s).1
          = ((process_match now true snap s).1, []) := by
        cases hst : s.tracked with
        | some st =>
          rw [process_match_read_some now snap s st e hsp he hst]
          obtain ⟨st', htr', hg1, hg2, hg3⟩ :=
            process_match_body_stabilizes now snap e st s hst
          rw [process_match_read_some now2 snap _ st' e hsp he htr']
          exact process_match_body_noop now2 snap e st' _ hg1 hg2 hg3
        | none =>
          rw [process_match_read_none now true snap s e hsp he (by simp [hst])]
          have hs1 : (update_tracked_match s (default_state now)).tracked
              = some (default_state now) := by
            simp [hst]
          obtain ⟨st', htr', hg1, hg2, hg3⟩ :=
            process_match_body_stabilizes now snap e (default_state now) _ hs1
          rw [process_match_read_some now2 snap _ st' e hsp he htr']
          exact process_match_body_noop now2 snap e st' _ hg1 hg2 hg3
      refine ⟨key, ?_⟩
      rw [key]
      simp only [List.append_nil]
      cases hst : s.tracked with
      | some st =>
        rw [process_match_read_some now snap s st e hsp he hst]
        exact process_match_body_countPlace now snap e st s
      | none =>
        rw [process_match_read_none now true snap s e hsp he (by simp [hst])]
        exact process_match_body_countPlace now snap e (default_state now) _
  · have hsp' : should_process_match snap.statusShort snap.elapsed = false := by
      simp only [Bool.not_eq_true] at hsp; exact hsp
    rw [process_match_skip now true snap s hsp']
    rw [process_match_skip now2 true snap s hsp']
    simp [countPlace]

/-- Claim C5: for a fixture in first-half phase with checkpoint 1 not yet
evaluated and score 1-1, minute 36 matches the level-score category and
places a primary (regular) decision; minute 30 is a complete no-op (outside
the closed window [35, 37]); minute 37, the window boundary, still matches,
the bounds being inclusive. -/
theorem C5_window_correctness (now : Nat) (snap : FixtureSnapshot) (s : FixtureStore)
    (st : MatchState)
    (hstatus : snap.statusShort = "1H")
    (hh : snap.homeGoals = some 1) (ha : snap.awayGoals = some 1)
    (hst : s.tracked = some st) (hflag : truthy st.bet36Placed = false) :
    (∃ b : Bet,
      (process_match now true { snap with elapsed := some 36 } s).2.head?
        = some (Effect.placeDecision "regular" b) ∧
      (process_match now true { snap with elapsed := some 36 } s).1.pending = some b ∧
      b.betType = "regular" ∧ b.initialScore = "1-1") ∧
    process_match now true { snap with elapsed := some 30 } s = (s, []) ∧
    (∃ b : Bet,
      (process_match now true { snap with elapsed := some 37 } s).2.head?
        = some (Effect.placeDecision "regular" b) ∧
      (process_match now true { snap with elapsed := some 37 } s).1.pending = some b ∧
      b.betType = "regular" ∧ b.initialScore = "1-1") := by
  have hsp : should_process_match snap.statusShort (some (36 : Int)) = true := by
    rw [hstatus]; decide
  have hup : py_upper snap.statusShort = "1H" := by rw [hstatus]; decide
  have hscore : scoreString (snap.homeGoals.getD 0) (snap.awayGoals.getD 0) = "1-1" := by
    rw [hh, ha]; decide
  have hred : ∀ e : Int, 35 ≤ e → e ≤ 37 →
      ∃ b : Bet,
      (process_match now true { snap with elapsed := some e } s).2.head?
        = some (Effect.placeDecision "regular" b) ∧
      (process_match now true { snap with elapsed := some e } s).1.pending = some b ∧
      b.betType = "regular" ∧ b.initialScore = "1-1" := by
    intro e h1 h2
    rw [process_match_read_some now _ s st e hsp rfl hst]
    unfold process_match_body
    have hg : guard36 (py_upper snap.statusShort) e st = true := by
      rw [guard36_iff]
      exact ⟨hup, h1, h2, hflag⟩
    dsimp only
    rw [hg]
    simp only [if_true, hscore,
      show levelScores.contains "1-1" = true from by decide,
      add_unresolved_bet, hst]
    exact ⟨_, rfl, rfl, rfl, hscore.symm ▸ rfl⟩
  exact ⟨hred 36 (by decide) (by decide), by
    rw [process_match_read_some now _ s st 30 hsp rfl hst]
    apply process_match_body_noop
    · simp [guard36]
    · exact guardHT_false_of_status _ _ (by rw [hup]; decide)
    · exact guardChase_false_of_status _ _ _ (by rw [hup]; decide),
    hred 37 (by decide) (by decide)⟩

/-- Claim C2: at half-time with checkpoint 1 evaluated, its result not yet
checked and a pending regular decision in the store, `process_match` itself
archives the decision (bypassing the batch resolver: the resolved document
is written and the pending slot cleared during this very call, the ghost
archive counter rising by one), with outcome `win` exactly when the
half-time score string equals the recorded `36_score`, and `loss`
otherwise; it sets `36_result_checked := true` and `36_bet_won` to the
computed result. -/
theorem C2_halftime_stability (now : Nat) (snap : FixtureSnapshot) (s : FixtureStore)
    (st : MatchState) (b : Bet) (e : Int)
    (hstatus : py_upper snap.statusShort = "HT")
    (he : snap.elapsed = some e)
    (hplaced : truthy st.bet36Placed = true)
    (hunchecked : truthy st.result36Checked = false)
    (hst : s.tracked = some st)
    (hp : s.pending = some b) (hbt : b.betType = "regular") :
    (process_match now true snap s).1.resolved
        = some { bet := b,
                 outcome := if st.score36 ==
                     some (scoreString (snap.homeGoals.getD 0) (snap.awayGoals.getD 0))
                   then "win" else "loss",
                 resolvedAt := now } ∧
    (process_match now true snap s).1.pending = none ∧
    (∃ st', (process_match now true snap s).1.tracked = some st' ∧
      st'.result36Checked = some true ∧
      st'.bet36Won = some (st.score36 ==
        some (scoreString (snap.homeGoals.getD 0) (snap.awayGoals.getD 0)))) ∧
    ((if st.score36 ==
        some (scoreString (snap.homeGoals.getD 0) (snap.awayGoals.getD 0))
        then "win" else "loss") = "win"
      ↔ st.score36 =
        some (scoreString (snap.homeGoals.getD 0) (snap.awayGoals.getD 0))) ∧
    (process_match now true snap s).1.archiveWrites = s.archiveWrites + 1 := by
  have hsp : should_process_match snap.statusShort snap.elapsed = true := by
    simp [should_process_match, hstatus, he]
  rw [process_match_read_some now snap s st e hsp he hst]
  unfold process_match_body
  dsimp only
  rw [guard36_false_of_status _ _ _ (by rw [hstatus]; decide)]
  rw [(guardHT_iff _ _).mpr ⟨hstatus, hplaced, hunchecked⟩]
  simp only [Bool.false_eq_true, if_false, if_true, update_tracked_match_pending,
    hp, beq_iff_eq.mpr hbt, if_true]
  obtain ⟨s3, hs3, hp3, hr3, ha3⟩ := move_to_resolved_exists_ok now
    (update_tracked_match s
      { htScore := some (scoreString (snap.homeGoals.getD 0) (snap.awayGoals.getD 0)),
        lastUpdate := some now }) b b
    (if st.score36 == some (scoreString (snap.homeGoals.getD 0) (snap.awayGoals.getD 0))
      then "win" else "loss")
    (by simp [hp])
  rw [hs3]
  have houtcome : ((if (st.score36 ==
      some (scoreString (snap.homeGoals.getD 0) (snap.awayGoals.getD 0))) = true
      then "win" else "loss") == "win")
      = (st.score36 == some (scoreString (snap.homeGoals.getD 0) (snap.awayGoals.getD 0))) := by
    cases h : st.score36 ==
        some (scoreString (snap.homeGoals.getD 0) (snap.awayGoals.getD 0)) <;>
      simp [h]
  refine ⟨?_, ?_, ?_, ?_, ?_⟩
  · simp only [update_tracked_match_resolved, hr3]
  · simp only [update_tracked_match_pending, hp3]
  · refine ⟨_, rfl, by simp, ?_⟩
    simp only [update_tracked_match_tracked, mergeState_bet36Won, mergeField_some]
    rw [houtcome]
  · constructor
    · intro hw
      by_cases h : (st.score36 ==
          some (scoreString (snap.homeGoals.getD 0) (snap.awayGoals.getD 0))) = true
      · exact beq_iff_eq.mp h
      · rw [if_neg h] at hw
        exact absurd hw (by decide)
    · intro heq
      rw [if_pos (beq_iff_eq.mpr heq)]
  · simp only [update_tracked_match_archiveWrites, ha3,
      update_tracked_match_archiveWrites]

/-- Concrete half-time fixture used to instantiate hypotheses. -/
def wSnapHT : FixtureSnapshot :=
  { fixtureId := 1, statusShort := "HT", elapsed := some 46,
    homeTeam := "Home", awayTeam := "Away", leagueName := "League",
    country := "Land", leagueId := 2, homeGoals := some 1, awayGoals := some 1 }

/-- Tracked state after a placed 36-minute bet on score 1-1. -/
def wState36 : MatchState :=
  { bet36Placed := some true, result36Checked := some false,
    score36 := some "1-1", lastUpdate := some 3 }

/-- The matching pending regular bet. -/
def wBet36 : Bet :=
  { matchName := "Home vs Away", league := "League", country := "Land",
    leagueId := 2, initialScore := "1-1", betType := "regular", placedAt := 3 }

/-- Store with the tracked match and its open regular bet. -/
def wStoreHT : FixtureStore := { tracked := some wState36, pending := some wBet36 }

theorem C2_halftime_stability_witness :
    (process_match 9 true wSnapHT wStoreHT).1.resolved
      = some { bet := wBet36, outcome := "win", resolvedAt := 9 } :=
  ((C2_halftime_stability 9 wSnapHT wStoreHT wState36 wBet36 46
    rfl rfl rfl rfl rfl rfl rfl).1).trans (by decide)

/-- Concrete first-half fixture at score 1-1 (elapsed filled per scenario). -/
def wSnap1H : FixtureSnapshot :=
  { fixtureId := 1, statusShort := "1H", elapsed := none,
    homeTeam := "Home", awayTeam := "Away", leagueName := "League",
    country := "Land", leagueId := 2, homeGoals := some 1, awayGoals := some 1 }

/-- Tracked state with checkpoint 1 not yet evaluated. -/
def wStateFresh : MatchState :=
  { bet36Placed := some false, result36Checked := some false,
    bet80Placed := some false, bet80Resolved := some false, lastUpdate := some 1 }

/-- Store tracking the fixture with checkpoint 1 not yet evaluated. -/
def wStore1H : FixtureStore := { tracked := some wStateFresh }

theorem C5_window_correctness_witness :
    ∃ b : Bet,
      (process_match 5 true { wSnap1H with elapsed := some 36 } wStore1H).2.head?
        = some (Effect.placeDecision "regular" b) ∧
      (process_match 5 true { wSnap1H with elapsed := some 36 } wStore1H).1.pending
        = some b ∧
      b.betType = "regular" ∧ b.initialScore = "1-1" :=
  (C5_window_correctness 5 wSnap1H wStore1H _ rfl rfl rfl rfl rfl).1

/-- Feed behaviour for the rate-limit scenario: the first request is
rate-limited, every later request returns the finished fixture 1. -/
def cexFeed : Nat → List Nat → ApiResult := fun n _ =>
  if n = 0 then .rateLimited 60 else .ok [(1, "FT")]

/-- Claim C9: a batch fetch whose (single) chunk gets a rate-limited first
response returns nothing for that chunk - the `continue` after the sleep
advances to the next chunk instead of retrying - even though an immediate
retry of the same request (the next request the feed would serve) would
have returned the finished fixture.  The finished fixture of the
rate-limited chunk is silently dropped from the cycle. -/
theorem C9_rate_limited_chunk_dropped :
    get_fixtures_by_ids cexFeed [1] = [] ∧
    cexFeed 1 [1] = .ok [(1, "FT")] := ⟨rfl, rfl⟩

/-- A chase bet whose minute-80 score was 1-1. -/
def chaseBetCex : Bet :=
  { matchName := "Home vs Away", league := "League", country := "Land",
    leagueId := 2, initialScore := "1-1", betType := "chase",
    score36 := some "0-0", htScore := some "1-1", score80 := some "1-1",
    placedAt := 4 }

/-- A finished-fixture snapshot with final score 1-1. -/
def ftSnapCex : FixtureSnapshot :=
  { fixtureId := 1, statusShort := "FT", elapsed := some 90,
    homeTeam := "Home", awayTeam := "Away", leagueName := "League",
    country := "Land", leagueId := 2, homeGoals := some 1, awayGoals := some 1 }

/-- Claim C3 counterexample: a chase decision whose fixture finished with
the final score equal to the score captured at checkpoint 2 is archived
with outcome `win`, not `loss`: the claim's polarity (equality yields loss)
is the reverse of what the code computes. -/
theorem C3_chase_polarity_counterexample :
    (check_one_bet 9 { pending := some chaseBetCex } (some ftSnapCex)).1.resolved
      = some { bet := chaseBetCex, outcome := "win", resolvedAt := 9 } ∧
    ("win" : String) ≠ "loss" := ⟨rfl, by decide⟩

/-- Claim C3 as amended: for every chase pending decision whose fixture
reports finished, the resolution engine compares the final score string to
the score captured at checkpoint 2 (`bet_info.get('80_score', '')`), with
equality yielding the outcome `win` and inequality yielding `loss`, and
archives the decision with that outcome. -/
theorem C3_chase_polarity (now : Nat) (s : FixtureStore) (b : Bet) (fx : FixtureSnapshot)
    (hp : s.pending = some b) (hbt : b.betType = "chase")
    (hft : fx.statusShort = "FT") :
    (check_one_bet now s (some fx)).1.resolved
      = some { bet := b,
               outcome := if scoreString (fx.homeGoals.getD 0) (fx.awayGoals.getD 0)
                   == b.score80.getD "" then "win" else "loss",
               resolvedAt := now } ∧
    (check_one_bet now s (some fx)).1.pending = none ∧
    ((if scoreString (fx.homeGoals.getD 0) (fx.awayGoals.getD 0)
        == b.score80.getD "" then "win" else "loss") = "win"
      ↔ scoreString (fx.homeGoals.getD 0) (fx.awayGoals.getD 0) = b.score80.getD "") := by
  have hne : (fx.statusShort != "FT") = false := by rw [hft]; decide
  have hout : ft_outcome b (scoreString (fx.homeGoals.getD 0) (fx.awayGoals.getD 0))
      = if scoreString (fx.homeGoals.getD 0) (fx.awayGoals.getD 0)
          == b.score80.getD "" then "win" else "loss" := by
    simp [ft_outcome, hbt]
  unfold check_one_bet
  rw [hp]
  dsimp only
  rw [hne]
  simp only [Bool.false_eq_true, if_false, ite_false]
  obtain ⟨s2, hs2, hp2, hr2, ha2⟩ := move_to_resolved_exists_ok now s b b
    (ft_outcome b (scoreString (fx.homeGoals.getD 0) (fx.awayGoals.getD 0))) hp
  rw [hs2]
  refine ⟨?_, ?_, ?_⟩
  · rw [hr2, hout]
  · exact hp2
  · constructor
    · intro hw
      by_cases h : (scoreString (fx.homeGoals.getD 0) (fx.awayGoals.getD 0)
          == b.score80.getD "") = true
      · exact beq_iff_eq.mp h
      · rw [if_neg h] at hw
        exact absurd hw (by decide)
    · intro heq
      rw [if_pos (beq_iff_eq.mpr heq)]

/-- Claim C7 counterexample: a primary (regular) pending decision whose
fixture reports finished is archived with outcome `error`, which is neither
`win` nor `loss` - the code applies no category rule at full time. -/
theorem C7_ft_regular_error_counterexample :
    (check_one_bet 9 { pending := some wBet36 } (some ftSnapCex)).1.resolved
      = some { bet := wBet36, outcome := "error", resolvedAt := 9 } ∧
    ("error" : String) ≠ "win" ∧ ("error" : String) ≠ "loss" :=
  ⟨rfl, by decide, by decide⟩

/-- Claim C7 as amended: every primary (kind regular) pending decision
whose fixture reports finished is archived with outcome `error` and a
diagnostic notification ("Regular bet was not resolved at HT"): the
resolution engine has no full-time category rules for primary decisions,
which are resolvable only at half-time. -/
theorem C7_ft_regular_error (now : Nat) (s : FixtureStore) (b : Bet) (fx : FixtureSnapshot)
    (hp : s.pending = some b) (hbt : b.betType = "regular")
    (hft : fx.statusShort = "FT") :
    (check_one_bet now s (some fx)).1.resolved
      = some { bet := b, outcome := "error", resolvedAt := now } ∧
    (check_one_bet now s (some fx)).1.pending = none ∧
    (check_one_bet now s (some fx)).2
      = [Effect.telegram ("FT " ++ b.betType ++ " bet error")] := by
  have hne : (fx.statusShort != "FT") = false := by rw [hft]; decide
  have hout : ft_outcome b (scoreString (fx.homeGoals.getD 0) (fx.awayGoals.getD 0))
      = "error" := by
    simp [ft_outcome, hbt]
  unfold check_one_bet
  rw [hp]
  dsimp only
  rw [hne]
  simp only [Bool.false_eq_true, if_false, ite_false, hout]
  obtain ⟨s2, hs2, hp2, hr2, ha2⟩ := move_to_resolved_exists_ok now s b b "error" hp
  rw [hs2]
  refine ⟨hr2, hp2, ?_⟩
  rw [hbt]
  rfl

theorem C3_chase_polarity_witness :
    (check_one_bet 9 { pending := some chaseBetCex } (some ftSnapCex)).1.pending
      = none :=
  (C3_chase_polarity 9 { pending := some chaseBetCex } chaseBetCex ftSnapCex
    rfl rfl rfl).2.1

theorem C7_ft_regular_error_witness :
    (check_one_bet 9 { pending := some wBet36 } (some ftSnapCex)).1.pending
      = none :=
  (C7_ft_regular_error 9 { pending := some wBet36 } wBet36 ftSnapCex
    rfl rfl rfl).2.1

/-- Claim C6: moving a decision from pending to archived is one atomic
transaction scoped to the fixture: from a state where the decision is still
pending (as after a crash between the notification and the store write),
running the transaction writes the archived document, clears the pending
slot and bumps the archive-write counter by exactly one, all in the same
resulting state - the decision can neither vanish un-archived nor be
archived twice, since any re-run of the resolution pass against the
resulting state leaves it untouched (the pending check fails and the
transaction aborts with the store unchanged). -/
theorem C6_atomic_archive (now : Nat) (s : FixtureStore) (b : Bet)
    (outcome : String) (hp : s.pending = some b) :
    ∃ s1, move_to_resolved now s b outcome = .ok s1 ∧
      s1.pending = none ∧
      s1.resolved = some { bet := b, outcome := outcome, resolvedAt := now } ∧
      s1.archiveWrites = s.archiveWrites + 1 ∧
      (∀ now2 outcome2, move_to_resolved now2 s1 b outcome2
        = .error "Bet not found in unresolved_bets") ∧
      (∀ now2 lookup, check_one_bet now2 s1 lookup = (s1, [])) := by
  obtain ⟨s1, hs1, hp1, hr1, ha1⟩ := move_to_resolved_exists_ok now s b b outcome hp
  refine ⟨s1, hs1, hp1, hr1, ha1, ?_, ?_⟩
  · intro now2 outcome2
    unfold move_to_resolved
    rw [hp1]
  · intro now2 lookup
    unfold check_one_bet
    rw [hp1]

theorem C6_atomic_archive_witness :
    ∃ s1, move_to_resolved 9 wStoreHT wBet36 "loss" = .ok s1 ∧
      s1.pending = none ∧
      s1.resolved = some { bet := wBet36, outcome := "loss", resolvedAt := 9 } ∧
      s1.archiveWrites = wStoreHT.archiveWrites + 1 ∧
      (∀ now2 outcome2, move_to_resolved now2 s1 wBet36 outcome2
        = .error "Bet not found in unresolved_bets") ∧
      (∀ now2 lookup, check_one_bet now2 s1 lookup = (s1, [])) :=
  C6_atomic_archive 9 wStoreHT wBet36 "loss" rfl

/-- Tracked state of a fixture whose checkpoint 1 was evaluated and its
half-time result checked. -/
def wStateChecked : MatchState :=
  { bet36Placed := some true, result36Checked := some true,
    bet36Won := some false, score36 := some "1-1", htScore := some "2-1",
    lastUpdate := some 6 }

/-- A live second-half snapshot at minute 50 (no checkpoint window). -/
def cexSnap2H : FixtureSnapshot :=
  { fixtureId := 1, statusShort := "2H", elapsed := some 50,
    homeTeam := "Home", awayTeam := "Away", leagueName := "League",
    country := "Land", leagueId := 2, homeGoals := some 2, awayGoals := some 1 }

/-- Claim C4 is violated by the code: when the state read fails
(`get_tracked_match` returns `None` on an exception exactly as for an
absent document), `process_match` re-initializes the state, and the
`initialize_match_state` merge write carries literal `False` values for
`36_bet_placed` and `36_result_checked` - overwriting the stored `True`
values.  The evaluated flags are reset from true to false by a
re-initialization merge, even though no block fires on this snapshot. -/
theorem C4_flag_reset_on_failed_read :
    wStateChecked.bet36Placed = some true ∧
    wStateChecked.result36Checked = some true ∧
    ((process_match 7 false cexSnap2H
        { tracked := some wStateChecked }).1.tracked.getD {}).bet36Placed
      = some false ∧
    ((process_match 7 false cexSnap2H
        { tracked := some wStateChecked }).1.tracked.getD {}).result36Checked
      = some false := ⟨rfl, rfl, rfl, rfl⟩

/-- A dead-end store - checkpoint 1 evaluated and checked, `36_bet_won`
absent, nothing pending - absorbs every later event: no write, no effect. -/
theorem dead_end_absorbs (s : FixtureStore) (st : MatchState)
    (h1 : s.tracked = some st) (h2 : st.bet36Placed = some true)
    (h3 : st.result36Checked = some true) (h4 : st.bet36Won = none)
    (h5 : s.pending = none) :
    ∀ evs : List BotEvent, runEvents s evs = (s, []) := by
  have hstep : ∀ ev : BotEvent, botStep s ev = (s, []) := by
    intro ev
    cases ev with
    | ftCheck now lookup =>
      show check_one_bet now s lookup = (s, [])
      unfold check_one_bet
      rw [h5]
    | liveSnap now snap =>
      show process_match now true snap s = (s, [])
      by_cases hsp : should_process_match snap.statusShort snap.elapsed
      · cases he : snap.elapsed with
        | none =>
          exfalso
          rw [should_process_match] at hsp
          simp [he] at hsp
        | some e =>
          rw [process_match_read_some now snap s st e hsp he h1]
          apply process_match_body_noop
          · exact guard36_false_of_placed _ _ _ h2
          · exact guardHT_false_of_checked _ _ h3
          · simp [guardChase, h4]
      · exact process_match_skip now true snap s
          (by simp only [Bool.not_eq_true] at hsp; exact hsp)
  intro evs
  induction evs with
  | nil => rfl
  | cons ev rest ih =>
    show runEvents s (ev :: rest) = (s, [])
    unfold runEvents
    rw [hstep ev]
    simp only []
    rw [ih]
    rfl

/-- Claim C10: a fixture reaching half-time with `36_bet_placed` true,
`36_result_checked` false but no open regular pending decision gets
`36_result_checked` set to true with `36_bet_won` left unset (neither true
nor false) and no notification; from that state every later event - any
live snapshot and any resolution pass - is absorbed with no write and no
effect, so neither a half-time win/loss outcome nor a checkpoint-2 chase
decision can ever fire for the fixture. -/
theorem C10_halftime_dead_end (now : Nat) (snap : FixtureSnapshot) (s : FixtureStore)
    (st : MatchState) (e : Int)
    (hstatus : py_upper snap.statusShort = "HT") (he : snap.elapsed = some e)
    (hplaced : st.bet36Placed = some true)
    (hunchecked : truthy st.result36Checked = false)
    (hwon : st.bet36Won = none)
    (hst : s.tracked = some st) (hp : s.pending = none) :
    ∃ st1, (process_match now true snap s).1.tracked = some st1 ∧
      st1.result36Checked = some true ∧
      st1.bet36Won = none ∧
      st1.bet36Placed = some true ∧
      (process_match now true snap s).1.pending = none ∧
      (process_match now true snap s).2 = [] ∧
      (process_match now true snap s).1.archiveWrites = s.archiveWrites ∧
      ∀ evs : List BotEvent,
        runEvents (process_match now true snap s).1 evs
          = ((process_match now true snap s).1, []) := by
  have hsp : should_process_match snap.statusShort snap.elapsed = true := by
    simp [should_process_match, hstatus, he]
  rw [process_match_read_some now snap s st e hsp he hst]
  unfold process_match_body
  dsimp only
  rw [guard36_false_of_placed _ _ _ hplaced]
  rw [(guardHT_iff _ _).mpr ⟨hstatus, by simp [hplaced], hunchecked⟩]
  simp only [Bool.false_eq_true, if_false, if_true, update_tracked_match_pending,
    hp]
  refine ⟨_, rfl, ?_, ?_, ?_, ?_, ?_, ?_, ?_⟩
  · simp
  · simp [hst, hwon]
  · simp [hst, hplaced]
  · simp
  · simp
  · simp
  · exact dead_end_absorbs _
      (mergeState
        (mergeState st
          { htScore := some (scoreString (snap.homeGoals.getD 0) (snap.awayGoals.getD 0)),
            lastUpdate := some now })
        { result36Checked := some true, lastUpdate := some now })
      (by simp [hst]) (by simp [hplaced]) (by simp) (by simp [hwon]) (by simp [hp])

/-- Tracked state at half-time with the bet flag set but no pending bet. -/
def wStateNoBet : MatchState :=
  { bet36Placed := some true, result36Checked := some false,
    score36 := some "1-1", lastUpdate := some 3 }

/-- Store tracking the fixture with nothing pending. -/
def wStoreNoBet : FixtureStore := { tracked := some wStateNoBet }

theorem C10_halftime_dead_end_witness :
    (process_match 9 true wSnapHT wStoreNoBet).2 = [] := by
  obtain ⟨st1, -, -, -, -, -, heff, -, -⟩ :=
    C10_halftime_dead_end 9 wSnapHT wStoreNoBet wStateNoBet 46
      rfl rfl rfl rfl rfl rfl rfl
  exact heff

/-- Number of open pending decisions of a given kind for the fixture (the
store keys `unresolved_bets` by fixture id, so there is a single slot). -/
def pendingCount (s : FixtureStore) (kind : String) : Nat :=
  match s.pending with
  | some b => if b.betType == kind then 1 else 0
  | none => 0

theorem pendingCount_le_one (s : FixtureStore) (kind : String) :
    pendingCount s kind ≤ 1 := by
  unfold pendingCount
  split
  · split <;> simp
  · simp

theorem truthy_eq_true_iff (o : Option Bool) : truthy o = true ↔ o = some true := by
  cases o with
  | none => simp
  | some b => cases b <;> simp

/-- Claim C8 as amended: the pending store holds a single decision slot per
fixture (both placement sites write document id `str(match_id)`), so at
most one open primary and at most one open chase decision exist per
fixture; and in any lifecycle step an open pending decision either survives
untouched, or is removed by being archived with an outcome (the archive
counter rising by one), or is overwritten un-archived by a freshly placed
decision on exactly two paths: a new primary, when a first-half snapshot in
the minute-36 window carries a level score and the state dict does not
record checkpoint 1 as evaluated (as after the half-time document
deletion erases `36_bet_placed`); or a new chase, when a second-half
snapshot in the minute-80 window finds the 36-minute bet recorded as lost
and no chase placed.  The resolution pass only keeps or archives a pending
decision. -/
theorem C8_pending_lifecycle (now : Nat) (snap : FixtureSnapshot)
    (s : FixtureStore) (b : Bet) (hp : s.pending = some b) :
    (pendingCount (process_match now true snap s).1 "regular" ≤ 1 ∧
     pendingCount (process_match now true snap s).1 "chase" ≤ 1) ∧
    ((process_match now true snap s).1.pending = some b ∨
     ((process_match now true snap s).1.pending = none ∧
      (process_match now true snap s).1.archiveWrites = s.archiveWrites + 1 ∧
      ∃ out, (process_match now true snap s).1.resolved
        = some { bet := b, outcome := out, resolvedAt := now }) ∨
     (∃ c, (process_match now true snap s).1.pending = some c ∧
       (process_match now true snap s).1.archiveWrites = s.archiveWrites ∧
       ((c.betType = "regular" ∧ py_upper snap.statusShort = "1H" ∧
         truthy (s.tracked.getD (default_state now)).bet36Placed = false ∧
         (∃ e, snap.elapsed = some e ∧ 35 ≤ e ∧ e ≤ 37) ∧
         levelScores.contains
           (scoreString (snap.homeGoals.getD 0) (snap.awayGoals.getD 0)) = true) ∨
        (c.betType = "chase" ∧ py_upper snap.statusShort = "2H" ∧
         (s.tracked.getD (default_state now)).bet36Won = some false ∧
         truthy (s.tracked.getD (default_state now)).bet80Placed = false ∧
         (∃ e, snap.elapsed = some e ∧ 79 ≤ e ∧ e ≤ 81))))) ∧
    (∀ now2 lookup, (check_one_bet now2 s lookup).1.pending = some b ∨
      ((check_one_bet now2 s lookup).1.pending = none ∧
       (check_one_bet now2 s lookup).1.archiveWrites = s.archiveWrites + 1 ∧
       ∃ out, (check_one_bet now2 s lookup).1.resolved
         = some { bet := b, outcome := out, resolvedAt := now2 })) := by
  refine ⟨⟨pendingCount_le_one _ _, pendingCount_le_one _ _⟩, ?_, ?_⟩
  · by_cases hsp : should_process_match snap.statusShort snap.elapsed
    · cases he : snap.elapsed with
      | none =>
        exfalso
        rw [should_process_match] at hsp
        simp [he] at hsp
      | some e =>
        cases hst : s.tracked with
        | some st =>
          rw [process_match_read_some now snap s st e hsp he hst]
          unfold process_match_body
          dsimp only
          by_cases g1 : guard36 (py_upper snap.statusShort) e st
          · obtain ⟨hu, h35, h37, hflag⟩ := (guard36_iff _ _ _).mp g1
            rw [g1]
            simp only [if_true]
            by_cases hcur : levelScores.contains
                (scoreString (snap.homeGoals.getD 0) (snap.awayGoals.getD 0)) = true
            · simp only [hcur, if_true, add_unresolved_bet, hst]
              refine Or.inr (Or.inr ⟨_, rfl, rfl, Or.inl ⟨rfl, hu, ?_, ⟨e, rfl, h35, h37⟩, trivial⟩⟩)
              simp [hst, hflag]
            · rw [Bool.not_eq_true] at hcur
              simp only [hcur, Bool.false_eq_true, if_false]
              exact Or.inl (by simp [hp])
          · rw [Bool.not_eq_true] at g1
            rw [g1]
            simp only [Bool.false_eq_true, if_false]
            by_cases g2 : guardHT (py_upper snap.statusShort) st
            · rw [g2]
              simp only [if_true, update_tracked_match_pending, hp]
              by_cases hbt : (b.betType == "regular") = true
              · simp only [hbt, if_true]
                obtain ⟨s3, hs3, hp3, hr3, ha3⟩ := move_to_resolved_exists_ok now
                  (update_tracked_match s
                    { htScore := some (scoreString (snap.homeGoals.getD 0) (snap.awayGoals.getD 0)),
                      lastUpdate := some now }) b b
                  (if (st.score36 == some (scoreString (snap.homeGoals.getD 0)
                      (snap.awayGoals.getD 0))) = true then "win" else "loss")
                  (by simp [hp])
                rw [hs3]
                refine Or.inr (Or.inl ⟨?_, ?_, ?_⟩)
                · simp [hp3]
                · simp [ha3]
                · exact ⟨_, by simp only [update_tracked_match_resolved]; exact hr3⟩
              · simp only [hbt, Bool.false_eq_true, if_false]
                exact Or.inl (by simp [hp])
            · rw [Bool.not_eq_true] at g2
              rw [g2]
              simp only [Bool.false_eq_true, if_false]
              by_cases g3 : guardChase (py_upper snap.statusShort) e st
              · obtain ⟨hu, h79, h81, h80, hwon⟩ := (guardChase_iff _ _ _).mp g3
                rw [g3]
                simp only [if_true, add_unresolved_bet, hst]
                refine Or.inr (Or.inr ⟨_, rfl, rfl, Or.inr ⟨rfl, hu, ?_, ?_, e, rfl, h79, h81⟩⟩)
                · simp [hst, hwon]
                · simp [hst, h80]
              · rw [Bool.not_eq_true] at g3
                rw [g3]
                simp only [Bool.false_eq_true, if_false]
                exact Or.inl hp
        | none =>
          rw [process_match_read_none now true snap s e hsp he (by simp [hst])]
          unfold process_match_body
          dsimp only
          by_cases g1 : guard36 (py_upper snap.statusShort) e (default_state now)
          · obtain ⟨hu, h35, h37, hflag⟩ := (guard36_iff _ _ _).mp g1
            rw [g1]
            simp only [if_true]
            by_cases hcur : levelScores.contains
                (scoreString (snap.homeGoals.getD 0) (snap.awayGoals.getD 0)) = true
            · simp only [hcur, if_true, add_unresolved_bet, update_tracked_match_tracked]
              refine Or.inr (Or.inr ⟨_, rfl, rfl, Or.inl ⟨rfl, hu, ?_, ⟨e, rfl, h35, h37⟩, trivial⟩⟩)
              simp [hst, default_state]
            · rw [Bool.not_eq_true] at hcur
              simp only [hcur, Bool.false_eq_true, if_false]
              exact Or.inl (by simp [hp])
          · have g2 : guardHT (py_upper snap.statusShort) (default_state now) = false := by
              simp [guardHT, default_state]
            have g3 : guardChase (py_upper snap.statusShort) e (default_state now) = false := by
              simp [guardChase, default_state]
            rw [Bool.not_eq_true] at g1
            rw [g1, g2, g3]
            simp only [Bool.false_eq_true, if_false]
            exact Or.inl (by simp [hp])
    · rw [process_match_skip now true snap s
        (by simp only [Bool.not_eq_true] at hsp; exact hsp)]
      exact Or.inl hp
  · intro now2 lookup
    cases lookup with
    | none =>
      unfold check_one_bet
      rw [hp]
      exact Or.inl hp
    | some fx =>
      unfold check_one_bet
      rw [hp]
      dsimp only
      by_cases hft : (fx.statusShort != "FT") = true
      · rw [hft]
        simp only [if_true]
        exact Or.inl hp
      · rw [Bool.not_eq_true] at hft
        rw [hft]
        simp only [Bool.false_eq_true, if_false]
        obtain ⟨s3, hs3, hp3, hr3, ha3⟩ := move_to_resolved_exists_ok now2 s b b
          (ft_outcome b (scoreString (fx.homeGoals.getD 0) (fx.awayGoals.getD 0))) hp
        rw [hs3]
        exact Or.inr ⟨hp3, ha3, _, hr3⟩

/-- Snapshot trace for the overwrite scenario: level score at minute 36,
changed score at half-time, a replayed first-half snapshot at minute 36
(now 2-2), then a second-half snapshot at minute 80. -/
def t1 : FixtureSnapshot :=
  { fixtureId := 1, statusShort := "1H", elapsed := some 36,
    homeTeam := "Home", awayTeam := "Away", leagueName := "League",
    country := "Land", leagueId := 2, homeGoals := some 1, awayGoals := some 1 }

/-- Half-time snapshot at 2-1. -/
def t2 : FixtureSnapshot :=
  { t1 with statusShort := "HT", elapsed := some 46, homeGoals := some 2 }

/-- Replayed first-half snapshot at minute 36, score now 2-2. -/
def t3 : FixtureSnapshot := { t1 with homeGoals := some 2, awayGoals := some 2 }

/-- Second-half snapshot at minute 80, score 2-2. -/
def t4 : FixtureSnapshot :=
  { t1 with
    statusShort := "2H"
    elapsed := some 80
    homeGoals := some 2
    awayGoals := some 2 }

/-- Store after the first three snapshots, starting from nothing tracked. -/
def c8s3 : FixtureStore :=
  (process_match 3 true t3
    (process_match 2 true t2 (process_match 1 true t1 {}).1).1).1

/-- Store after the fourth snapshot. -/
def c8s4 : FixtureStore := (process_match 4 true t4 c8s3).1

/-- Store after snapshots t1, t2 and t4 (no replay yet): the half-time
archive deleted and partially recreated the tracked document, erasing
`36_bet_placed`, and the minute-80 snapshot then placed a chase decision. -/
def c8r4 : FixtureStore :=
  (process_match 4 true t4
    (process_match 2 true t2 (process_match 1 true t1 {}).1).1).1

/-- Store after additionally replaying the first-half minute-36 snapshot
over the chase-pending state. -/
def c8r5 : FixtureStore := (process_match 5 true t3 c8r4).1

/-- Claim C8 counterexample: on reachable traces (empty store, then the
snapshots above) an open pending decision is overwritten without being
archived, in both directions.  After t1, t2, t3 the fixture holds an open
primary decision, and the minute-80 chase placement (t4) overwrites it;
after t1, t2, t4 the fixture holds an open chase decision, and a replayed
first-half minute-36 level-score snapshot (t3) overwrites it with a fresh
primary - `36_bet_placed` was erased by the half-time document deletion,
so the checkpoint-1 block fires again.  In both cases the pending slot
changes while the archive counter and the archived document stay unchanged:
an open pending decision was removed from the pending set without being
archived. -/
theorem C8_pending_lifecycle_counterexample :
    ((∃ b, c8s3.pending = some b ∧ b.betType = "regular") ∧
     (∃ c, c8s4.pending = some c ∧ c.betType = "chase") ∧
     c8s4.archiveWrites = c8s3.archiveWrites ∧
     c8s4.resolved = c8s3.resolved) ∧
    ((∃ c, c8r4.pending = some c ∧ c.betType = "chase") ∧
     (∃ b2, c8r5.pending = some b2 ∧ b2.betType = "regular") ∧
     c8r5.archiveWrites = c8r4.archiveWrites ∧
     c8r5.resolved = c8r4.resolved) :=
  ⟨⟨⟨_, rfl, rfl⟩, ⟨_, rfl, rfl⟩, rfl, rfl⟩,
   ⟨⟨_, rfl, rfl⟩, ⟨_, rfl, rfl⟩, rfl, rfl⟩⟩

theorem C8_pending_lifecycle_witness :
    pendingCount (process_match 9 true wSnapHT wStoreHT).1 "regular" ≤ 1 :=
  (C8_pending_lifecycle 9 wSnapHT wStoreHT wBet36 rfl).1.1
